import Mathlib

/-!
# Verification of the driving-distance query/aggregation and bulk-ingestion engine

Shallow embedding of `backend/routers/drivingdistance_routes.py`,
`backend/schemas/drivingdistance.py` and the relevant parts of
`backend/models/drivingdistance.py` / `backend/database.py`.

Modelling conventions:
* A stored row (`DrivingDistance`) carries `date` as an integer day ordinal and
  `distance` as an integer number of hundredths: the column is `Numeric(10, 2)`,
  a fixed-point decimal with two fraction digits, so scaling by 100 represents
  it exactly, and SQL `SUM` over the column is exact fixed-point addition.  The
  pydantic schema requires a numeric `distance`, so API-created rows never hold
  NULL there.
* A timestamp is wall-clock minutes together with an optional timezone offset in
  minutes (`none` models a naive Python `datetime`).
* The record store is a list of rows; the bulk endpoint additionally threads a
  `DB` structure with the store's auto-increment counter and server clock.
* HTTP failures are `HTTPError` values (status code and detail string), and a
  fallible store commit is an oracle `Nat → Option String` giving the failure
  message of each chunk's commit, `none` meaning the commit succeeds.
* Read handlers return a `ReadResult`: the response plus the session's pending
  in-memory attribute changes and whether the handler committed.  `get_db`
  closes the session in its `finally` block; a close without commit discards
  pending changes, which `storeAfterRead` makes explicit.
-/

deriving instance DecidableEq for Except

namespace BeAnalytics

/-- A point in time: wall-clock minutes since the epoch as displayed, plus an
optional timezone offset in minutes (`none` = naive datetime). -/
structure Timestamp where
  wall : Int
  off : Option Int
deriving DecidableEq, Repr

/-- Python `dt.replace(tzinfo=timezone.utc)`: attach UTC, keep the wall clock. -/
def replaceTzUtc (t : Timestamp) : Timestamp :=
  { t with off := some 0 }

/-- Python `dt.astimezone(tz)` on an aware datetime, for a fixed target offset
`o` in minutes: same instant, displayed in the target zone.  (All call sites in
the source attach a zone first, so the naive fallback `getD 0` is never hit.) -/
def astimezone (o : Int) (t : Timestamp) : Timestamp :=
  { wall := t.wall - t.off.getD 0 + o, off := some o }

/-- The Bangkok offset used throughout the source: `timezone(timedelta(hours=7))`. -/
def bkkOffset : Int := 7 * 60

/-- `convert_to_bangkok` from `schemas/drivingdistance.py`: if the value is a
datetime, attach UTC when it is naive and convert to UTC+7; anything else
(`None`) passes through unchanged. -/
def convert_to_bangkok : Option Timestamp → Option Timestamp
  | none => none
  | some t =>
    let t := if t.off = none then { t with off := some 0 } else t
    some (astimezone bkkOffset t)

/-- One stored driving-distance row (`models/drivingdistance.py`).  `distance`
is the `Numeric(10, 2)` value scaled to an integer count of hundredths. -/
structure DrivingDistance where
  id : Nat
  plate_number : String
  truck_number : String
  gps_vendor : String
  date : Int
  distance : Int
  created_at : Option Timestamp
deriving DecidableEq, Repr

/-- A candidate row for bulk ingestion (`DrivingDistanceCreate`): every data
field populated, no `id` yet. -/
structure DrivingDistanceCreate where
  plate_number : String
  truck_number : String
  gps_vendor : String
  date : Int
  distance : Int
  created_at : Option Timestamp
deriving DecidableEq, Repr

/-- The JSON payload of `POST /filter` and `POST /sumdistance`
(`DrivingDistanceFilter` in the router). -/
structure DrivingDistanceFilter where
  plate_number : Option (List String) := none
  start_at : Option Int := none
  end_at : Option Int := none
  limit : Nat := 500
deriving DecidableEq, Repr

/-- An HTTP error response (`HTTPException`): status code and detail string. -/
structure HTTPError where
  status : Nat
  detail : String
deriving DecidableEq, Repr

/-- Result of a read handler: the response, the session's pending in-memory
`created_at` overwrites (row id, new value), and whether the handler committed. -/
structure ReadResult (α : Type) where
  response : Except HTTPError α
  dirty : List (Nat × Option Timestamp)
  didCommit : Bool
deriving DecidableEq, Repr

/-- What a commit would write back: apply pending attribute changes to the
store. -/
def applyDirty (dirty : List (Nat × Option Timestamp)) (store : List DrivingDistance) :
    List DrivingDistance :=
  store.map fun r =>
    match dirty.lookup r.id with
    | some t => { r with created_at := t }
    | none => r

/-- Store contents once `get_db`'s `finally` block closes the session: pending
changes are flushed only if the handler committed; a close without commit
discards them (`autocommit=False`, `autoflush=False`). -/
def storeAfterRead {α : Type} (store : List DrivingDistance) (res : ReadResult α) :
    List DrivingDistance :=
  if res.didCommit then applyDirty res.dirty store else store

/-! ## Filter compilation (`POST /filter` body handling) -/

/-- The plate predicate of `filter_driving_distance`: `if payload.plate_number:`
is Python truthiness, so both `None` and the empty list impose no restriction;
a non-empty list restricts to `plate_number.in_(payload.plate_number)`. -/
def plateCond (plates : Option (List String)) (r : DrivingDistance) : Bool :=
  match plates with
  | none => true
  | some [] => true
  | some ps => ps.contains r.plate_number

/-- The date predicate of `filter_driving_distance`: both bounds → inclusive
range; only start → lower bound; only end → upper bound; neither → no
restriction. -/
def dateCond (start_at end_at : Option Int) (r : DrivingDistance) : Bool :=
  match start_at, end_at with
  | some s, some e => decide (s ≤ r.date) && decide (r.date ≤ e)
  | some s, none => decide (s ≤ r.date)
  | none, some e => decide (r.date ≤ e)
  | none, none => true

/-- The conjunction of all active predicates (`query.filter(*filters)`). -/
def matchesFilter (payload : DrivingDistanceFilter) (r : DrivingDistance) : Bool :=
  plateCond payload.plate_number r && dateCond payload.start_at payload.end_at r

/-- `ORDER BY date ASC` as a relation on rows. -/
def dateLe (a b : DrivingDistance) : Prop := a.date ≤ b.date

instance : DecidableRel dateLe := fun a b => inferInstanceAs (Decidable (a.date ≤ b.date))

instance : IsTotal DrivingDistance dateLe := ⟨fun a b => Int.le_total a.date b.date⟩

instance : IsTrans DrivingDistance dateLe := ⟨fun _ _ _ => Int.le_trans⟩

/-- `ORDER BY id DESC` as a relation on rows. -/
def idGe (a b : DrivingDistance) : Prop := b.id ≤ a.id

instance : DecidableRel idGe := fun a b => inferInstanceAs (Decidable (b.id ≤ a.id))

instance : IsTotal DrivingDistance idGe := ⟨fun a b => Nat.le_total b.id a.id⟩

instance : IsTrans DrivingDistance idGe := ⟨fun _ _ _ hab hbc => Nat.le_trans hbc hab⟩

/-- The in-place `created_at` overwrite both list handlers perform on each
fetched row: `record.created_at.replace(tzinfo=timezone.utc).astimezone(BKK_TZ)`
when `created_at` is set (a datetime is always truthy; `None` is skipped). -/
def routeConvert : Option Timestamp → Option Timestamp
  | none => none
  | some t => some (astimezone bkkOffset (replaceTzUtc t))

/-- A fetched row after the handler's in-memory `created_at` overwrite. -/
def bkkRecord (r : DrivingDistance) : DrivingDistance :=
  { r with created_at := routeConvert r.created_at }

/-! ## `POST /filter` and `GET /` -/

/-- The row set fetched by `POST /filter`: apply the compiled predicate, order
ascending by date, truncate to the limit
(`query.order_by(date.asc()).limit(payload.limit).all()`). -/
def filterRecords (payload : DrivingDistanceFilter) (db : List DrivingDistance) :
    List DrivingDistance :=
  (List.insertionSort dateLe (db.filter (matchesFilter payload))).take payload.limit

/-- `filter_driving_distance` (`POST /filter`): 404 when nothing matches; else
overwrite `created_at` on each fetched row in memory and return them.  The
handler never commits. -/
def filter_driving_distance (payload : DrivingDistanceFilter)
    (db : List DrivingDistance) : ReadResult (List DrivingDistance) :=
  if (filterRecords payload db).isEmpty then
    ⟨Except.error ⟨404, "No matching records found"⟩, [], false⟩
  else
    ⟨Except.ok ((filterRecords payload db).map bkkRecord),
     (filterRecords payload db).map (fun r => (r.id, routeConvert r.created_at)), false⟩

/-- Plate predicate of `get_driving_distance_records` (duplicated in the source
for the query-parameter endpoint). -/
def plateCondQ (plate_number : Option (List String)) (r : DrivingDistance) : Bool :=
  match plate_number with
  | none => true
  | some [] => true
  | some ps => ps.contains r.plate_number

/-- Date predicate of `get_driving_distance_records` (duplicated in the source
for the query-parameter endpoint). -/
def dateCondQ (start_at end_at : Option Int) (r : DrivingDistance) : Bool :=
  match start_at, end_at with
  | some s, some e => decide (s ≤ r.date) && decide (r.date ≤ e)
  | some s, none => decide (s ≤ r.date)
  | none, some e => decide (r.date ≤ e)
  | none, none => true

/-- The row set fetched by `GET /` — the query-parameter duplicate of
`filterRecords`. -/
def getRecords (plate_number : Option (List String)) (start_at end_at : Option Int)
    (limit : Nat) (db : List DrivingDistance) : List DrivingDistance :=
  (List.insertionSort dateLe
    (db.filter fun r => plateCondQ plate_number r && dateCondQ start_at end_at r)).take limit

/-- `get_driving_distance_records` (`GET /`): the query-parameter variant, a
line-for-line duplicate of the `POST /filter` pipeline. -/
def get_driving_distance_records (plate_number : Option (List String))
    (start_at end_at : Option Int) (limit : Nat)
    (db : List DrivingDistance) : ReadResult (List DrivingDistance) :=
  if (getRecords plate_number start_at end_at limit db).isEmpty then
    ⟨Except.error ⟨404, "No matching records found"⟩, [], false⟩
  else
    ⟨Except.ok ((getRecords plate_number start_at end_at limit db).map bkkRecord),
     (getRecords plate_number start_at end_at limit db).map
       (fun r => (r.id, routeConvert r.created_at)), false⟩

/-! ## `POST /sumdistance` -/

/-- `GROUP BY plate_number ORDER BY plate_number ASC` with `SUM(distance)`: the
distinct plates of the given rows, ascending, each with the exact sum of its
rows' distances. -/
def groupSums (l : List DrivingDistance) : List (String × Int) :=
  (List.insertionSort (fun a b : String => a ≤ b) (l.map fun r => r.plate_number).dedup).map
    fun p => (p, ((l.filter fun r => r.plate_number == p).map fun r => r.distance).sum)

/-- Python `str` of an optional date, as used in the `period` f-string. -/
def optDateStr : Option Int → String
  | none => "None"
  | some d => toString d

/-- One element of the `summary` array of `POST /sumdistance`.  `total_distance`
is in hundredths, like `distance`. -/
structure SummaryRow where
  plate_number : String
  total_distance : Int
  start_at : Option Int
  end_at : Option Int
deriving DecidableEq, Repr

/-- The response body of `POST /sumdistance`. -/
structure SummaryOut where
  period : String
  summary : List SummaryRow
deriving DecidableEq, Repr

/-- `summarize_distance` (`POST /sumdistance`): same compiled predicate, no
limit, grouped by plate and summed; 404 when no row matches; else one summary
row per plate with the requested bounds echoed back.  (`float(total or 0)` never
changes the numeric value: a non-empty group of non-null distances sums to a
number, and `0.0 or 0` is still zero.)  The handler never commits and registers
no attribute change. -/
def summarize_distance (payload : DrivingDistanceFilter)
    (db : List DrivingDistance) : ReadResult SummaryOut :=
  if (groupSums (db.filter (matchesFilter payload))).isEmpty then
    ⟨Except.error ⟨404, "No records found for summary"⟩, [], false⟩
  else
    ⟨Except.ok
      ⟨optDateStr payload.start_at ++ " → " ++ optDateStr payload.end_at,
       (groupSums (db.filter (matchesFilter payload))).map
         fun pq => ⟨pq.1, pq.2, payload.start_at, payload.end_at⟩⟩,
     [], false⟩

/-! ## `GET /platenumber` -/

/-- The response body of `GET /platenumber` on success. -/
structure PlateOut where
  count : Nat
  plates : List String
deriving DecidableEq, Repr

/-- `db.query(plate_number).distinct().order_by(asc()).all()`: the distinct
plate values of the store, ascending. -/
def platesDistinct (db : List DrivingDistance) : List String :=
  List.insertionSort (fun a b : String => a ≤ b) (db.map fun r => r.plate_number).dedup

/-- `[p[0] for p in plates if p[0]]`: keep only truthy plate values, which
drops the empty string (and would drop NULL). -/
def unique_plates (db : List DrivingDistance) : List String :=
  (platesDistinct db).filter fun p => !(p == "")

/-- `get_unique_plate_numbers` (`GET /platenumber`).  When no truthy plate
remains the source raises `HTTPException(404, "No plate numbers found")` — but
that raise sits inside the `try` block whose `except Exception` clause catches
it (FastAPI's `HTTPException` derives from `Exception`) and re-raises it as a
500 whose detail embeds `str(e) = "404: No plate numbers found"`. -/
def get_unique_plate_numbers (db : List DrivingDistance) : ReadResult PlateOut :=
  if (unique_plates db).isEmpty then
    ⟨Except.error ⟨500, "Error retrieving plate numbers: 404: No plate numbers found"⟩, [], false⟩
  else
    ⟨Except.ok ⟨(unique_plates db).length, unique_plates db⟩, [], false⟩

/-! ## `POST /bulk` -/

/-- The record store as the bulk endpoint sees it: the committed rows, the
auto-increment counter the store uses for new `id`s, and the server clock used
for the `created_at` server default (`server_default=func.now()`). -/
structure DB where
  rows : List DrivingDistance
  nextId : Nat
  now : Timestamp
deriving DecidableEq, Repr

/-- `DrivingDistance(**r.dict())` persisted: the store assigns the next id and
fills `created_at` from `func.now()` when the payload left it unset. -/
def mkRecord (id : Nat) (now : Timestamp) (c : DrivingDistanceCreate) : DrivingDistance :=
  { id := id
    plate_number := c.plate_number
    truck_number := c.truck_number
    gps_vendor := c.gps_vendor
    date := c.date
    distance := c.distance
    created_at := match c.created_at with
      | some t => some t
      | none => some now }

/-- The rows a chunk becomes, with consecutive store-assigned ids. -/
def mkRecords (startId : Nat) (now : Timestamp) : List DrivingDistanceCreate → List DrivingDistance
  | [] => []
  | c :: cs => mkRecord startId now c :: mkRecords (startId + 1) now cs

/-- `db.bulk_save_objects(records); db.commit()` for one chunk: append the
chunk's rows and advance the id counter. -/
def insertChunk (db : DB) (batch : List DrivingDistanceCreate) : DB :=
  { rows := db.rows ++ mkRecords db.nextId db.now batch
    nextId := db.nextId + batch.length
    now := db.now }

/-- `range(0, total, batch_size)` slicing with `batch_size = 2000`, written with
structurally decreasing fuel (each chunk consumes at least one element, so
`l.length` units of fuel always suffice and the fuel-exhausted branch is
unreachable; `bulkChunksGo_congr` below makes that precise). -/
def bulkChunksGo : Nat → List DrivingDistanceCreate → List (List DrivingDistanceCreate)
  | _, [] => []
  | 0, _ :: _ => []
  | fuel + 1, c :: cs => (c :: cs).take 2000 :: bulkChunksGo fuel ((c :: cs).drop 2000)

/-- The payload split into consecutive chunks of 2000, the last possibly
shorter. -/
def bulkChunks (l : List DrivingDistanceCreate) : List (List DrivingDistanceCreate) :=
  bulkChunksGo l.length l

/-- The chunk loop of `create_large_bulk_records`.  `commitRes i` is the store's
outcome for chunk `i`'s write-and-commit: `none` means it succeeds, `some msg`
means it raises with message `msg`, upon which the handler rolls the chunk back
(the store keeps only previously committed chunks) and aborts with
`HTTPException(500, "Database insert failed: ...")`.  After each successful
commit the handler re-reads the most recent `len(batch)` rows
(`ORDER BY id DESC LIMIT len(batch)`) and prepends them to the accumulator; on
completion it returns the reversed accumulator. -/
def bulkGo (commitRes : Nat → Option String) :
    Nat → List (List DrivingDistanceCreate) → List DrivingDistance → DB →
    Except HTTPError (List DrivingDistance) × DB
  | _, [], inserted_records, db => (Except.ok inserted_records.reverse, db)
  | i, batch :: rest, inserted_records, db =>
    match commitRes i with
    | some msg => (Except.error ⟨500, "Database insert failed: " ++ msg⟩, db)
    | none =>
      let db := insertChunk db batch
      let last_batch := (List.insertionSort idGe db.rows).take batch.length
      bulkGo commitRes (i + 1) rest (last_batch ++ inserted_records) db

/-- `create_large_bulk_records` (`POST /bulk`): reject an empty payload with a
400 before touching the store, then run the chunk loop. -/
def create_large_bulk_records (commitRes : Nat → Option String)
    (payload : List DrivingDistanceCreate) (db : DB) :
    Except HTTPError (List DrivingDistance) × DB :=
  if payload.length = 0 then
    (Except.error ⟨400, "No records provided."⟩, db)
  else
    bulkGo commitRes 0 (bulkChunks payload) [] db

/-- The commit oracle of a run with no store failure. -/
def noFailure : Nat → Option String := fun _ => none

/-- Ids strictly ascending along the row list: the store lays rows out in
insertion order and never reuses an id. -/
def IdsAscending (l : List DrivingDistance) : Prop :=
  List.Pairwise (fun a b => a.id < b.id) l

/-! ## Helper lemmas -/

/-- A successful list response is the fetched row set with the in-memory
`created_at` overwrite applied. -/
lemma filter_response_ok {payload : DrivingDistanceFilter} {db : List DrivingDistance}
    {recs : List DrivingDistance}
    (h : (filter_driving_distance payload db).response = Except.ok recs) :
    recs = (filterRecords payload db).map bkkRecord := by
  unfold filter_driving_distance at h
  split at h
  · exact absurd h (by simp)
  · rw [Except.ok.injEq] at h
    exact h.symm

/-- Every fetched row comes from the store and satisfies the compiled
predicate. -/
lemma mem_filterRecords {payload : DrivingDistanceFilter} {db : List DrivingDistance}
    {r : DrivingDistance} (h : r ∈ filterRecords payload db) :
    r ∈ db ∧ matchesFilter payload r = true := by
  unfold filterRecords at h
  have h₁ : r ∈ List.insertionSort dateLe (db.filter (matchesFilter payload)) :=
    List.Sublist.mem h (List.take_sublist _ _)
  have h₂ : r ∈ db.filter (matchesFilter payload) :=
    (List.perm_insertionSort _ _).mem_iff.mp h₁
  exact ⟨(List.mem_filter.mp h₂).1, (List.mem_filter.mp h₂).2⟩

/-- The fetched row set is sorted ascending by date. -/
lemma filterRecords_sorted (payload : DrivingDistanceFilter) (db : List DrivingDistance) :
    List.Pairwise dateLe (filterRecords payload db) :=
  List.Pairwise.sublist (List.take_sublist _ _) (List.sorted_insertionSort dateLe _)

/-- A true plate predicate on a non-empty requested plate list means
membership. -/
lemma plateCond_true {plates : Option (List String)} {r : DrivingDistance}
    (h : plateCond plates r = true) :
    ∀ ps, plates = some ps → ps ≠ [] → r.plate_number ∈ ps := by
  intro ps hps hne
  subst hps
  cases ps with
  | nil => exact absurd rfl hne
  | cons q qs =>
    have hc : (q :: qs).contains r.plate_number = true := h
    simpa using hc

/-- A true date predicate gives the bound stated by each present endpoint. -/
lemma dateCond_true {s e : Option Int} {r : DrivingDistance} (h : dateCond s e r = true) :
    (∀ a, s = some a → a ≤ r.date) ∧ (∀ b, e = some b → r.date ≤ b) := by
  cases s with
  | none =>
    cases e with
    | none => exact ⟨fun a ha => (by cases ha), fun b hb => (by cases hb)⟩
    | some b₀ =>
      refine ⟨fun a ha => (by cases ha), fun b hb => ?_⟩
      cases hb
      exact of_decide_eq_true h
  | some a₀ =>
    cases e with
    | none =>
      refine ⟨fun a ha => ?_, fun b hb => (by cases hb)⟩
      cases ha
      exact of_decide_eq_true h
    | some b₀ =>
      rw [dateCond, Bool.and_eq_true] at h
      exact ⟨fun a ha => (by cases ha; exact of_decide_eq_true h.1),
             fun b hb => (by cases hb; exact of_decide_eq_true h.2)⟩

/-- None of the four read handlers ever commits. -/
lemma reads_never_commit (payload : DrivingDistanceFilter)
    (plate_number : Option (List String)) (start_at end_at : Option Int) (limit : Nat)
    (db : List DrivingDistance) :
    (filter_driving_distance payload db).didCommit = false ∧
    (get_driving_distance_records plate_number start_at end_at limit db).didCommit = false ∧
    (summarize_distance payload db).didCommit = false ∧
    (get_unique_plate_numbers db).didCommit = false := by
  refine ⟨?_, ?_, ?_, ?_⟩
  · unfold filter_driving_distance; split <;> rfl
  · unfold get_driving_distance_records; split <;> rfl
  · unfold summarize_distance; split <;> rfl
  · unfold get_unique_plate_numbers; split <;> rfl

/-! ## Theorems -/

/-- C6: Time Normalization is a pure total function: a naive timestamp (assumed
UTC) gains the UTC zone and is shifted to UTC+7 (wall clock advances by 420
minutes), an aware timestamp keeps its instant while being redisplayed at +7,
`None` passes through as `None`, and the concrete instance
2025-06-01T10:00:00 naive (wall minute 29146200 since the epoch) becomes
2025-06-01T17:00:00+07:00 (wall minute 29146620, offset +420). -/
theorem c6_convert_to_bangkok_contract :
    (∀ w : Int, convert_to_bangkok (some ⟨w, none⟩) = some ⟨w + 420, some 420⟩) ∧
    (∀ w o : Int, convert_to_bangkok (some ⟨w, some o⟩) = some ⟨w - o + 420, some 420⟩) ∧
    convert_to_bangkok none = none ∧
    convert_to_bangkok (some ⟨29146200, none⟩) = some ⟨29146620, some 420⟩ := by
  refine ⟨fun w => ?_, fun w o => ?_, rfl, by decide⟩
  · simp [convert_to_bangkok, astimezone, bkkOffset]
  · simp [convert_to_bangkok, astimezone, bkkOffset]

/-- C7: an empty bulk payload is rejected with HTTP 400 before any chunk is
processed, whatever the store's commit behaviour; the store is returned
unchanged. -/
theorem c7_bulk_rejects_empty_payload (commitRes : Nat → Option String) (db : DB) :
    create_large_bulk_records commitRes [] db =
      (Except.error ⟨400, "No records provided."⟩, db) := rfl

/-- C8: the query-parameter endpoint `GET /` and the payload endpoint
`POST /filter` compute identical results — same records, same pending session
changes, same errors — for every criteria and store. -/
theorem c8_get_equals_post_filter (plate_number : Option (List String))
    (start_at end_at : Option Int) (limit : Nat) (db : List DrivingDistance) :
    get_driving_distance_records plate_number start_at end_at limit db =
      filter_driving_distance ⟨plate_number, start_at, end_at, limit⟩ db := rfl

/-- C2 (code bug): on a store with no rows, `GET /platenumber` does not surface
the intended `NotFound`: the `HTTPException(404, "No plate numbers found")` it
raises is caught by its own `except Exception` clause and re-raised as a 500
server fault carrying the 404 in its detail text. -/
theorem c2_platenumber_empty_store_is_500 :
    (get_unique_plate_numbers []).response =
      Except.error ⟨500, "Error retrieving plate numbers: 404: No plate numbers found"⟩ ∧
    ∀ d : String, (get_unique_plate_numbers []).response ≠ Except.error ⟨404, d⟩ := by
  exact ⟨rfl, fun d h => by simp [get_unique_plate_numbers, unique_plates, platesDistinct] at h⟩

/-- C10: `GET /platenumber` filters with Python truthiness (`if p[0]`), so the
empty string is excluded exactly like NULL: it never appears in the returned
plate list (whose `count` is that list's length), and a store whose only plate
values are `""` takes the no-plates error path. -/
theorem c10_platenumber_excludes_empty_string (db : List DrivingDistance) :
    (∀ res, (get_unique_plate_numbers db).response = Except.ok res →
       "" ∉ res.plates ∧ res.count = res.plates.length) ∧
    ((∀ r ∈ db, r.plate_number = "") →
       (get_unique_plate_numbers db).response =
         Except.error ⟨500, "Error retrieving plate numbers: 404: No plate numbers found"⟩) := by
  constructor
  · intro res h
    unfold get_unique_plate_numbers at h
    split at h
    · exact absurd h (by simp)
    · rw [Except.ok.injEq] at h
      subst h
      refine ⟨fun hmem => ?_, rfl⟩
      have := (List.mem_filter.mp hmem).2
      simp at this
  · intro hall
    unfold get_unique_plate_numbers
    have hnil : unique_plates db = [] := by
      refine List.filter_eq_nil_iff.mpr fun p hp => ?_
      have hp₁ : p ∈ (db.map fun r => r.plate_number).dedup :=
        ((List.perm_insertionSort _ _).mem_iff).mp hp
      have hp₂ : p ∈ db.map fun r => r.plate_number := List.mem_dedup.mp hp₁
      obtain ⟨r, hr, rfl⟩ := List.mem_map.mp hp₂
      simp [hall r hr]
    simp only [hnil]
    rfl

/-- Witness for C10 at concrete stores: a store with plates `"A"` and `""`
whose response lists only `"A"`, and a store holding only `""` plates, which
takes the error path. -/
theorem c10_witness :
    ("" ∉ (PlateOut.mk 1 ["A"]).plates ∧
      (PlateOut.mk 1 ["A"]).count = (PlateOut.mk 1 ["A"]).plates.length) ∧
    (get_unique_plate_numbers [⟨1, "", "T", "G", 1, 0, none⟩]).response =
      Except.error ⟨500, "Error retrieving plate numbers: 404: No plate numbers found"⟩ :=
  ⟨(c10_platenumber_excludes_empty_string
      [⟨1, "A", "T", "G", 1, 0, none⟩, ⟨2, "A", "T", "G", 1, 0, none⟩]).1
      (PlateOut.mk 1 ["A"]) (by decide),
   (c10_platenumber_excludes_empty_string [⟨1, "", "T", "G", 1, 0, none⟩]).2 (by decide)⟩

/-- C5: every record a successful list response returns satisfies the
conjunction of the active predicates — membership in the requested plate set
when that set is non-empty, and each present date bound inclusively — and the
response is sorted ascending by date and truncated to the limit. -/
theorem c5_filter_returns_matching_sorted_limited (payload : DrivingDistanceFilter)
    (db : List DrivingDistance) (recs : List DrivingDistance)
    (h : (filter_driving_distance payload db).response = Except.ok recs) :
    (∀ r ∈ recs,
       (∀ ps, payload.plate_number = some ps → ps ≠ [] → r.plate_number ∈ ps) ∧
       (∀ a, payload.start_at = some a → a ≤ r.date) ∧
       (∀ b, payload.end_at = some b → r.date ≤ b)) ∧
    List.Pairwise dateLe recs ∧
    recs.length ≤ payload.limit := by
  have hrecs := filter_response_ok h
  subst hrecs
  refine ⟨?_, ?_, ?_⟩
  · intro r hr
    obtain ⟨r₀, hr₀, rfl⟩ := List.mem_map.mp hr
    obtain ⟨hdb, hmatch⟩ := mem_filterRecords hr₀
    rw [matchesFilter, Bool.and_eq_true] at hmatch
    exact ⟨plateCond_true hmatch.1, (dateCond_true hmatch.2).1, (dateCond_true hmatch.2).2⟩
  · exact List.pairwise_map.mpr (filterRecords_sorted payload db)
  · rw [List.length_map]
    exact List.length_take_le _ _

/-- Witness for C5: a one-row store and a fully active criteria set
(`plate_number=["A"], start_at=0, end_at=10, limit=500`). -/
theorem c5_witness :
    ((filter_driving_distance ⟨some ["A"], some 0, some 10, 500⟩
        [⟨1, "A", "T", "G", 5, 100, none⟩]).response =
      Except.ok [⟨1, "A", "T", "G", 5, 100, none⟩]) ∧
    ((∀ r ∈ [(⟨1, "A", "T", "G", 5, 100, none⟩ : DrivingDistance)],
       (∀ ps, (some ["A"] : Option (List String)) = some ps → ps ≠ [] → r.plate_number ∈ ps) ∧
       (∀ a, (some 0 : Option Int) = some a → a ≤ r.date) ∧
       (∀ b, (some 10 : Option Int) = some b → r.date ≤ b)) ∧
     List.Pairwise dateLe [(⟨1, "A", "T", "G", 5, 100, none⟩ : DrivingDistance)] ∧
     ([(⟨1, "A", "T", "G", 5, 100, none⟩ : DrivingDistance)]).length ≤ 500) :=
  ⟨by decide,
   c5_filter_returns_matching_sorted_limited ⟨some ["A"], some 0, some 10, 500⟩
     [⟨1, "A", "T", "G", 5, 100, none⟩] [⟨1, "A", "T", "G", 5, 100, none⟩] (by decide)⟩

/-- C9: all four read operations leave the record store unchanged — the session
is closed without a commit, so even the in-memory `created_at` overwrites of
the list handlers are discarded — and every record a list response returns is a
stored record differing at most in `created_at`. -/
theorem c9_reads_leave_store_unchanged (payload : DrivingDistanceFilter)
    (plate_number : Option (List String)) (start_at end_at : Option Int) (limit : Nat)
    (db : List DrivingDistance) :
    storeAfterRead db (filter_driving_distance payload db) = db ∧
    storeAfterRead db (get_driving_distance_records plate_number start_at end_at limit db) = db ∧
    storeAfterRead db (summarize_distance payload db) = db ∧
    storeAfterRead db (get_unique_plate_numbers db) = db ∧
    (∀ recs, (filter_driving_distance payload db).response = Except.ok recs →
       ∀ r ∈ recs, ∃ s ∈ db, r = bkkRecord s) := by
  obtain ⟨h₁, h₂, h₃, h₄⟩ := reads_never_commit payload plate_number start_at end_at limit db
  refine ⟨?_, ?_, ?_, ?_, ?_⟩
  · rw [storeAfterRead, h₁]; rfl
  · rw [storeAfterRead, h₂]; rfl
  · rw [storeAfterRead, h₃]; rfl
  · rw [storeAfterRead, h₄]; rfl
  · intro recs h r hr
    rw [filter_response_ok h] at hr
    obtain ⟨r₀, hr₀, rfl⟩ := List.mem_map.mp hr
    exact ⟨r₀, (mem_filterRecords hr₀).1, rfl⟩

/-- Witness for C9 at a concrete one-row store: the unrestricted criteria
return that row, and it is the stored row (its `created_at` is `None`, which the
overwrite leaves unchanged). -/
theorem c9_witness :
    ((filter_driving_distance ⟨none, none, none, 500⟩
        [⟨3, "B", "T", "G", 2, 7, none⟩]).response =
      Except.ok [⟨3, "B", "T", "G", 2, 7, none⟩]) ∧
    (∃ s ∈ [(⟨3, "B", "T", "G", 2, 7, none⟩ : DrivingDistance)],
      (⟨3, "B", "T", "G", 2, 7, none⟩ : DrivingDistance) = bkkRecord s) :=
  ⟨by decide,
   (c9_reads_leave_store_unchanged ⟨none, none, none, 500⟩ none none none 500
       [⟨3, "B", "T", "G", 2, 7, none⟩]).2.2.2.2
     [⟨3, "B", "T", "G", 2, 7, none⟩] (by decide)
     ⟨3, "B", "T", "G", 2, 7, none⟩ (by decide)⟩

/-- The in-memory `created_at` overwrite touches neither plates nor distances,
so grouped sums are unchanged by it. -/
lemma groupSums_map_bkkRecord (l : List DrivingDistance) :
    groupSums (l.map bkkRecord) = groupSums l := by
  unfold groupSums
  rw [List.map_map]
  have h₁ : ((fun r : DrivingDistance => r.plate_number) ∘ bkkRecord) =
      fun r : DrivingDistance => r.plate_number := rfl
  rw [h₁]
  congr 1
  funext p
  rw [List.filter_map]
  have h₂ : ((fun r : DrivingDistance => r.plate_number == p) ∘ bkkRecord) =
      fun r : DrivingDistance => r.plate_number == p := rfl
  rw [h₂, List.map_map]
  rfl

/-- Grouped sums only depend on the multiset of rows. -/
lemma groupSums_perm {l l' : List DrivingDistance} (h : l.Perm l') :
    groupSums l = groupSums l' := by
  unfold groupSums
  have hd : (l.map fun r => r.plate_number).dedup.Perm
      (l'.map fun r => r.plate_number).dedup :=
    (h.map _).dedup
  have hsorted :
      List.insertionSort (fun a b : String => a ≤ b) (l.map fun r => r.plate_number).dedup =
        List.insertionSort (fun a b : String => a ≤ b) (l'.map fun r => r.plate_number).dedup :=
    List.eq_of_perm_of_sorted
      ((List.perm_insertionSort _ _).trans (hd.trans (List.perm_insertionSort _ _).symm))
      (List.sorted_insertionSort _ _) (List.sorted_insertionSort _ _)
  rw [hsorted]
  congr 1
  funext p
  exact congrArg (Prod.mk p) (((h.filter _).map _).sum_eq)

/-- C1 counterexample: two same-plate rows and `limit = 1`.  The list operation
returns only the earlier row (distance 10.00, stored as 1000 hundredths), so
the sum over the records it returns is 1000 per plate — but the aggregate
operation, which applies no limit, reports 1500. -/
theorem c1_counterexample :
    (summarize_distance ⟨none, none, none, 1⟩
        [⟨1, "A", "T1", "G", 1, 1000, none⟩, ⟨2, "A", "T1", "G", 2, 500, none⟩]).response =
      Except.ok ⟨"None → None", [⟨"A", 1500, none, none⟩]⟩ ∧
    (filter_driving_distance ⟨none, none, none, 1⟩
        [⟨1, "A", "T1", "G", 1, 1000, none⟩, ⟨2, "A", "T1", "G", 2, 500, none⟩]).response =
      Except.ok [⟨1, "A", "T1", "G", 1, 1000, none⟩] ∧
    groupSums [⟨1, "A", "T1", "G", 1, 1000, none⟩] = [("A", 1000)] ∧
    [(("A" : String), (1500 : Int))] ≠ [("A", 1000)] := by
  refine ⟨by decide, by decide, by decide, by decide⟩

/-- C1 amended: the per-plate sums of the aggregate operation equal the grouped
sums over ALL records matching the criteria — the aggregate ignores the limit —
and they therefore equal the grouped sums over the records the list operation
returns whenever the number of matching rows does not exceed the limit.  (When
matches exceed the limit the two operations may disagree, as the counterexample
shows, though they need not — truncated rows of distance zero change no sum.) -/
theorem c1_aggregate_sums_match_list (payload : DrivingDistanceFilter)
    (db : List DrivingDistance) :
    (∀ out, (summarize_distance payload db).response = Except.ok out →
       out.summary.map (fun row => (row.plate_number, row.total_distance)) =
         groupSums (db.filter (matchesFilter payload))) ∧
    ((db.filter (matchesFilter payload)).length ≤ payload.limit →
      ∀ out recs, (summarize_distance payload db).response = Except.ok out →
        (filter_driving_distance payload db).response = Except.ok recs →
        out.summary.map (fun row => (row.plate_number, row.total_distance)) =
          groupSums recs) := by
  have hmain : ∀ out, (summarize_distance payload db).response = Except.ok out →
      out.summary.map (fun row => (row.plate_number, row.total_distance)) =
        groupSums (db.filter (matchesFilter payload)) := by
    intro out h
    unfold summarize_distance at h
    split at h
    · exact absurd h (by simp)
    · rw [Except.ok.injEq] at h
      subst h
      rw [List.map_map]
      exact List.map_id _
  refine ⟨hmain, fun hlim out recs hout hrecs => ?_⟩
  rw [hmain out hout, filter_response_ok hrecs, groupSums_map_bkkRecord]
  have htake : filterRecords payload db =
      List.insertionSort dateLe (db.filter (matchesFilter payload)) := by
    unfold filterRecords
    exact List.take_of_length_le
      (by rw [(List.perm_insertionSort dateLe _).length_eq]; exact hlim)
  rw [htake]
  exact groupSums_perm (List.perm_insertionSort dateLe _).symm

/-- Witness for C1 amended: the counterexample store queried with the default
limit 500, where all 2 matching rows fit within the limit and both operations
agree on the per-plate sum 1500. -/
theorem c1_amended_witness :
    ((([⟨1, "A", "T1", "G", 1, 1000, none⟩, ⟨2, "A", "T1", "G", 2, 500, none⟩] :
        List DrivingDistance).filter
          (matchesFilter ⟨none, none, none, 500⟩)).length ≤ 500) ∧
    (SummaryOut.mk "None → None" [⟨"A", 1500, none, none⟩]).summary.map
        (fun row => (row.plate_number, row.total_distance)) =
      groupSums [⟨1, "A", "T1", "G", 1, 1000, none⟩, ⟨2, "A", "T1", "G", 2, 500, none⟩] :=
  ⟨by decide,
   (c1_aggregate_sums_match_list ⟨none, none, none, 500⟩
       [⟨1, "A", "T1", "G", 1, 1000, none⟩, ⟨2, "A", "T1", "G", 2, 500, none⟩]).2
     (by decide)
     (SummaryOut.mk "None → None" [⟨"A", 1500, none, none⟩])
     [⟨1, "A", "T1", "G", 1, 1000, none⟩, ⟨2, "A", "T1", "G", 2, 500, none⟩]
     (by decide) (by decide)⟩

/-! ## Bulk-ingestion lemmas -/

lemma mkRecords_length (s : Nat) (now : Timestamp) (cs : List DrivingDistanceCreate) :
    (mkRecords s now cs).length = cs.length := by
  induction cs generalizing s with
  | nil => rfl
  | cons c cs ih => simp [mkRecords, ih]

lemma mkRecords_append (s : Nat) (now : Timestamp) (a b : List DrivingDistanceCreate) :
    mkRecords s now (a ++ b) = mkRecords s now a ++ mkRecords (s + a.length) now b := by
  induction a generalizing s with
  | nil => simp [mkRecords]
  | cons c cs ih =>
    have harith : s + (c :: cs).length = s + 1 + cs.length := by
      simp only [List.length_cons]
      omega
    rw [List.cons_append, mkRecords, mkRecords, ih (s + 1), harith, List.cons_append]

lemma mkRecords_id_ge (s : Nat) (now : Timestamp) (cs : List DrivingDistanceCreate) :
    ∀ r ∈ mkRecords s now cs, s ≤ r.id := by
  induction cs generalizing s with
  | nil => intro r hr; simp [mkRecords] at hr
  | cons c cs ih =>
    intro r hr
    simp only [mkRecords] at hr
    rcases List.mem_cons.mp hr with rfl | hr₀
    · exact Nat.le_refl s
    · have := ih (s + 1) r hr₀
      omega

lemma mkRecords_id_lt (s : Nat) (now : Timestamp) (cs : List DrivingDistanceCreate) :
    ∀ r ∈ mkRecords s now cs, r.id < s + cs.length := by
  induction cs generalizing s with
  | nil => intro r hr; simp [mkRecords] at hr
  | cons c cs ih =>
    intro r hr
    simp only [mkRecords] at hr
    rcases List.mem_cons.mp hr with rfl | hr₀
    · show s < s + (c :: cs).length
      simp only [List.length_cons]
      omega
    · have := ih (s + 1) r hr₀
      simp only [List.length_cons]
      omega

lemma mkRecords_pairwise (s : Nat) (now : Timestamp) (cs : List DrivingDistanceCreate) :
    IdsAscending (mkRecords s now cs) := by
  induction cs generalizing s with
  | nil => exact List.Pairwise.nil
  | cons c cs ih =>
    simp only [mkRecords]
    refine List.pairwise_cons.mpr ⟨?_, ih (s + 1)⟩
    intro y hy
    have := mkRecords_id_ge (s + 1) now cs y hy
    show s < y.id
    omega

lemma orderedInsert_of_forall_not {α : Type} {r : α → α → Prop} [DecidableRel r]
    {x : α} {l : List α} (h : ∀ y ∈ l, ¬ r x y) :
    List.orderedInsert r x l = l ++ [x] := by
  induction l with
  | nil => rfl
  | cons y ys ih =>
    rw [List.orderedInsert, if_neg (h y (List.mem_cons_self y ys)),
      ih fun z hz => h z (List.mem_cons_of_mem y hz)]
    rfl

/-- `ORDER BY id DESC` on rows laid out with ascending ids reverses them. -/
lemma insertionSort_idGe_of_ascending {l : List DrivingDistance} (h : IdsAscending l) :
    List.insertionSort idGe l = l.reverse := by
  induction l with
  | nil => rfl
  | cons x xs ih =>
    rw [List.insertionSort, ih (List.Pairwise.of_cons h)]
    rw [orderedInsert_of_forall_not ?hnot, List.reverse_cons]
    case hnot =>
      intro y hy
      have hy₀ : y ∈ xs := List.mem_reverse.mp hy
      have hxy : x.id < y.id := (List.pairwise_cons.mp h).1 y hy₀
      simp only [idGe]
      omega

lemma insertChunk_ascending (db : DB) (batch : List DrivingDistanceCreate)
    (hasc : IdsAscending db.rows) (hlt : ∀ r ∈ db.rows, r.id < db.nextId) :
    IdsAscending (insertChunk db batch).rows := by
  show IdsAscending (db.rows ++ mkRecords db.nextId db.now batch)
  refine List.pairwise_append.mpr ⟨hasc, mkRecords_pairwise _ _ _, ?_⟩
  intro a ha b hb
  have h₁ := hlt a ha
  have h₂ := mkRecords_id_ge db.nextId db.now batch b hb
  omega

lemma insertChunk_id_lt (db : DB) (batch : List DrivingDistanceCreate)
    (hlt : ∀ r ∈ db.rows, r.id < db.nextId) :
    ∀ r ∈ (insertChunk db batch).rows, r.id < (insertChunk db batch).nextId := by
  intro r hr
  show r.id < db.nextId + batch.length
  rcases List.mem_append.mp hr with hold | hnew
  · have := hlt r hold
    omega
  · have := mkRecords_id_lt db.nextId db.now batch r hnew
    omega

/-- The post-commit re-read (`ORDER BY id DESC LIMIT len(batch)`) recovers
exactly the chunk just inserted, in reverse id order. -/
lemma readback_eq (db : DB) (batch : List DrivingDistanceCreate)
    (hasc : IdsAscending db.rows) (hlt : ∀ r ∈ db.rows, r.id < db.nextId) :
    (List.insertionSort idGe (insertChunk db batch).rows).take batch.length =
      (mkRecords db.nextId db.now batch).reverse := by
  rw [insertionSort_idGe_of_ascending (insertChunk_ascending db batch hasc hlt)]
  show (db.rows ++ mkRecords db.nextId db.now batch).reverse.take batch.length = _
  rw [List.reverse_append]
  exact List.take_left' (by rw [List.length_reverse, mkRecords_length])

/-- The chunk loop on a failure-free store: all chunks are appended with
consecutive ids and the accumulator, once reversed, lists them in original
submission order. -/
lemma bulkGo_success :
    ∀ (cs : List (List DrivingDistanceCreate)) (i : Nat) (ins : List DrivingDistance) (d : DB),
    IdsAscending d.rows → (∀ r ∈ d.rows, r.id < d.nextId) →
    bulkGo noFailure i cs ins d =
      (Except.ok (ins.reverse ++ mkRecords d.nextId d.now cs.flatten),
       ⟨d.rows ++ mkRecords d.nextId d.now cs.flatten, d.nextId + cs.flatten.length, d.now⟩) := by
  intro cs
  induction cs with
  | nil =>
    intro i ins d hasc hlt
    simp [bulkGo, mkRecords]
  | cons batch rest ih =>
    intro i ins d hasc hlt
    rw [bulkGo]
    show bulkGo noFailure (i + 1) rest
        ((List.insertionSort idGe (insertChunk d batch).rows).take batch.length ++ ins)
        (insertChunk d batch) = _
    rw [readback_eq d batch hasc hlt]
    rw [ih (i + 1) _ (insertChunk d batch) (insertChunk_ascending d batch hasc hlt)
      (insertChunk_id_lt d batch hlt)]
    show (Except.ok (((mkRecords d.nextId d.now batch).reverse ++ ins).reverse ++
        mkRecords (d.nextId + batch.length) d.now rest.flatten), _) = _
    rw [List.reverse_append, List.reverse_reverse]
    rw [List.flatten_cons, mkRecords_append]
    simp [insertChunk, List.append_assoc, List.length_append, Nat.add_assoc]

/-- `bulkChunksGo` ignores the exact fuel as long as it suffices. -/
lemma bulkChunksGo_congr : ∀ (f₁ f₂ : Nat) (l : List DrivingDistanceCreate),
    l.length ≤ f₁ → l.length ≤ f₂ → bulkChunksGo f₁ l = bulkChunksGo f₂ l := by
  intro f₁
  induction f₁ with
  | zero =>
    intro f₂ l h₁ h₂
    cases l with
    | nil => cases f₂ <;> rfl
    | cons c cs => simp at h₁
  | succ f ih =>
    intro f₂ l h₁ h₂
    cases l with
    | nil => cases f₂ <;> rfl
    | cons c cs =>
      cases f₂ with
      | zero => simp at h₂
      | succ g =>
        show (c :: cs).take 2000 :: bulkChunksGo f ((c :: cs).drop 2000) =
             (c :: cs).take 2000 :: bulkChunksGo g ((c :: cs).drop 2000)
        rw [ih g ((c :: cs).drop 2000)
          (by simp only [List.length_drop, List.length_cons] at h₁ ⊢; omega)
          (by simp only [List.length_drop, List.length_cons] at h₂ ⊢; omega)]

/-- One unfolding of the chunking on a non-empty payload. -/
lemma bulkChunks_cons (c : DrivingDistanceCreate) (cs : List DrivingDistanceCreate) :
    bulkChunks (c :: cs) = (c :: cs).take 2000 :: bulkChunks ((c :: cs).drop 2000) := by
  show bulkChunksGo (c :: cs).length (c :: cs) = _
  rw [show (c :: cs).length = cs.length + 1 from rfl]
  show (c :: cs).take 2000 :: bulkChunksGo cs.length ((c :: cs).drop 2000) =
       (c :: cs).take 2000 :: bulkChunksGo ((c :: cs).drop 2000).length ((c :: cs).drop 2000)
  rw [bulkChunksGo_congr cs.length ((c :: cs).drop 2000).length ((c :: cs).drop 2000)
    (by simp only [List.length_drop, List.length_cons]; omega) (Nat.le_refl _)]

lemma bulkChunks_ne_nil (l : List DrivingDistanceCreate) (h : l ≠ []) :
    bulkChunks l = l.take 2000 :: bulkChunks (l.drop 2000) := by
  cases l with
  | nil => exact absurd rfl h
  | cons c cs => exact bulkChunks_cons c cs

/-- Concatenating the chunks recovers the payload. -/
lemma bulkChunksGo_flatten : ∀ (fuel : Nat) (l : List DrivingDistanceCreate),
    l.length ≤ fuel → (bulkChunksGo fuel l).flatten = l := by
  intro fuel
  induction fuel with
  | zero =>
    intro l h
    cases l with
    | nil => rfl
    | cons c cs => simp at h
  | succ f ih =>
    intro l h
    cases l with
    | nil => rfl
    | cons c cs =>
      show ((c :: cs).take 2000 :: bulkChunksGo f ((c :: cs).drop 2000)).flatten = c :: cs
      rw [List.flatten_cons,
        ih _ (by simp only [List.length_drop, List.length_cons] at h ⊢; omega)]
      exact List.take_append_drop _ _

lemma bulkChunks_flatten (l : List DrivingDistanceCreate) : (bulkChunks l).flatten = l :=
  bulkChunksGo_flatten l.length l (Nat.le_refl _)

/-- The number of chunks is `⌈length / 2000⌉`, written `(length + 1999) / 2000`. -/
lemma bulkChunksGo_length : ∀ (fuel : Nat) (l : List DrivingDistanceCreate),
    l.length ≤ fuel → (bulkChunksGo fuel l).length = (l.length + 1999) / 2000 := by
  intro fuel
  induction fuel with
  | zero =>
    intro l h
    cases l with
    | nil => rfl
    | cons c cs => simp at h
  | succ f ih =>
    intro l h
    cases l with
    | nil => rfl
    | cons c cs =>
      show ((c :: cs).take 2000 :: bulkChunksGo f ((c :: cs).drop 2000)).length = _
      rw [List.length_cons,
        ih _ (by simp only [List.length_drop, List.length_cons] at h ⊢; omega)]
      simp only [List.length_drop, List.length_cons]
      omega

lemma bulkChunks_length (l : List DrivingDistanceCreate) :
    (bulkChunks l).length = (l.length + 1999) / 2000 :=
  bulkChunksGo_length l.length l (Nat.le_refl _)

/-- A 4500-element payload splits into chunks of 2000, 2000 and 500. -/
lemma bulkChunks_map_length_4500 {l : List DrivingDistanceCreate} (h : l.length = 4500) :
    (bulkChunks l).map List.length = [2000, 2000, 500] := by
  have h0 : l ≠ [] := by intro he; rw [he] at h; simp at h
  rw [bulkChunks_ne_nil l h0]
  have h1 : (l.drop 2000).length = 2500 := by simp [List.length_drop, h]
  have h1ne : l.drop 2000 ≠ [] := by intro he; rw [he] at h1; simp at h1
  rw [bulkChunks_ne_nil _ h1ne]
  have h2 : ((l.drop 2000).drop 2000).length = 500 := by simp [List.length_drop, h]
  have h2ne : (l.drop 2000).drop 2000 ≠ [] := by intro he; rw [he] at h2; simp at h2
  rw [bulkChunks_ne_nil _ h2ne]
  have h3 : ((l.drop 2000).drop 2000).drop 2000 = [] := by
    rw [← List.length_eq_zero]
    simp [List.length_drop, h]
  rw [h3]
  show [(l.take 2000).length, ((l.drop 2000).take 2000).length,
        (((l.drop 2000).drop 2000).take 2000).length] = [2000, 2000, 500]
  simp only [List.length_take, List.length_drop, h]
  norm_num

/-- C3: a non-empty bulk payload submitted to a failure-free store persists
exactly its records — appended to the store with consecutive ids — and the
response lists them in original submission order; the payload is processed in
`⌈N / 2000⌉` chunks, which for N = 4500 are of sizes 2000, 2000 and 500. -/
theorem c3_bulk_success_order_and_chunks (payload : List DrivingDistanceCreate) (db : DB)
    (hne : payload ≠ []) (hasc : IdsAscending db.rows)
    (hlt : ∀ r ∈ db.rows, r.id < db.nextId) :
    create_large_bulk_records noFailure payload db =
      (Except.ok (mkRecords db.nextId db.now payload),
       ⟨db.rows ++ mkRecords db.nextId db.now payload, db.nextId + payload.length, db.now⟩) ∧
    (mkRecords db.nextId db.now payload).length = payload.length ∧
    (bulkChunks payload).length = (payload.length + 1999) / 2000 ∧
    (payload.length = 4500 → (bulkChunks payload).map List.length = [2000, 2000, 500]) := by
  refine ⟨?_, mkRecords_length _ _ _, bulkChunks_length payload,
    fun h4500 => bulkChunks_map_length_4500 h4500⟩
  unfold create_large_bulk_records
  rw [if_neg fun h => hne (List.length_eq_zero.mp h)]
  rw [bulkGo_success (bulkChunks payload) 0 [] db hasc hlt]
  rw [bulkChunks_flatten]
  rfl

/-- Witness for C3: one record into an empty store. -/
theorem c3_witness :
    (([⟨"A", "T", "G", 5, 300, none⟩] : List DrivingDistanceCreate) ≠ [] ∧
     IdsAscending (DB.mk [] 0 ⟨0, none⟩).rows ∧
     (∀ r ∈ (DB.mk [] 0 ⟨0, none⟩).rows, r.id < (DB.mk [] 0 ⟨0, none⟩).nextId)) ∧
    (create_large_bulk_records noFailure [⟨"A", "T", "G", 5, 300, none⟩] (DB.mk [] 0 ⟨0, none⟩) =
       (Except.ok (mkRecords 0 ⟨0, none⟩ [⟨"A", "T", "G", 5, 300, none⟩]),
        ⟨[] ++ mkRecords 0 ⟨0, none⟩ [⟨"A", "T", "G", 5, 300, none⟩], 0 + 1, ⟨0, none⟩⟩) ∧
     (mkRecords 0 ⟨0, none⟩ [⟨"A", "T", "G", 5, 300, none⟩]).length = 1 ∧
     (bulkChunks [⟨"A", "T", "G", 5, 300, none⟩]).length = (1 + 1999) / 2000 ∧
     (([⟨"A", "T", "G", 5, 300, none⟩] : List DrivingDistanceCreate).length = 4500 →
       (bulkChunks [⟨"A", "T", "G", 5, 300, none⟩]).map List.length = [2000, 2000, 500])) :=
  ⟨⟨(by decide), List.Pairwise.nil, (by simp)⟩,
   c3_bulk_success_order_and_chunks [⟨"A", "T", "G", 5, 300, none⟩] (DB.mk [] 0 ⟨0, none⟩)
     (by decide) List.Pairwise.nil (by simp)⟩

/-- The chunk loop when chunk `m` (0-based, relative to loop position `i`) is
the first whose commit fails: every earlier chunk stays committed, the failing
chunk is rolled back, and the loop aborts with the cause in the 500 detail. -/
lemma bulkGo_fail (commitRes : Nat → Option String) (msg : String) :
    ∀ (m : Nat) (cs : List (List DrivingDistanceCreate)) (i : Nat)
      (ins : List DrivingDistance) (d : DB),
    m < cs.length → commitRes (i + m) = some msg → (∀ k, k < m → commitRes (i + k) = none) →
    bulkGo commitRes i cs ins d =
      (Except.error ⟨500, "Database insert failed: " ++ msg⟩,
       ⟨d.rows ++ mkRecords d.nextId d.now ((cs.take m).flatten),
        d.nextId + ((cs.take m).flatten).length, d.now⟩) := by
  intro m
  induction m with
  | zero =>
    intro cs i ins d hm hfail hok
    cases cs with
    | nil => simp at hm
    | cons batch rest =>
      rw [bulkGo]
      have h0 : commitRes i = some msg := by simpa using hfail
      rw [h0]
      simp [mkRecords]
  | succ m ih =>
    intro cs i ins d hm hfail hok
    cases cs with
    | nil => simp at hm
    | cons batch rest =>
      rw [bulkGo]
      have h0 : commitRes i = none := by simpa using hok 0 (Nat.succ_pos m)
      rw [h0]
      show bulkGo commitRes (i + 1) rest
          ((List.insertionSort idGe (insertChunk d batch).rows).take batch.length ++ ins)
          (insertChunk d batch) = _
      rw [ih rest (i + 1) _ (insertChunk d batch)
        (by simpa using Nat.lt_of_succ_lt_succ (by simpa using hm))
        (by rw [show i + 1 + m = i + (m + 1) from by omega]; exact hfail)
        (fun k hk => by
          rw [show i + 1 + k = i + (k + 1) from by omega]
          exact hok (k + 1) (by omega))]
      show (_, DB.mk ((insertChunk d batch).rows ++
          mkRecords (insertChunk d batch).nextId (insertChunk d batch).now
            ((rest.take m).flatten))
          ((insertChunk d batch).nextId + ((rest.take m).flatten).length)
          (insertChunk d batch).now) = _
      rw [show ((batch :: rest).take (m + 1)) = batch :: rest.take m from rfl]
      rw [List.flatten_cons, mkRecords_append]
      simp [insertChunk, List.append_assoc, List.length_append, Nat.add_assoc]

/-- C4: when a chunk's write-or-commit fails, bulk ingestion aborts with a 500
carrying the originating cause; the chunks committed in earlier iterations
remain persisted and the failing chunk (and everything after it) is not. -/
theorem c4_bulk_partial_failure (commitRes : Nat → Option String)
    (payload : List DrivingDistanceCreate) (db : DB) (j : Nat) (msg : String)
    (hne : payload ≠ [])
    (hj : j < (bulkChunks payload).length)
    (hfail : commitRes j = some msg)
    (hok : ∀ i, i < j → commitRes i = none) :
    create_large_bulk_records commitRes payload db =
      (Except.error ⟨500, "Database insert failed: " ++ msg⟩,
       ⟨db.rows ++ mkRecords db.nextId db.now (((bulkChunks payload).take j).flatten),
        db.nextId + (((bulkChunks payload).take j).flatten).length, db.now⟩) := by
  unfold create_large_bulk_records
  rw [if_neg fun h => hne (List.length_eq_zero.mp h)]
  exact bulkGo_fail commitRes msg j (bulkChunks payload) 0 [] db hj
    (by simpa using hfail) (fun k hk => by simpa using hok k hk)

/-- Witness for C4: a single-chunk payload whose first commit fails with
message `"boom"`; the store is left exactly as it was. -/
theorem c4_witness :
    (([⟨"A", "T", "G", 5, 300, none⟩] : List DrivingDistanceCreate) ≠ [] ∧
     0 < (bulkChunks [⟨"A", "T", "G", 5, 300, none⟩]).length ∧
     (fun _ : Nat => some "boom") 0 = some "boom") ∧
    create_large_bulk_records (fun _ => some "boom") [⟨"A", "T", "G", 5, 300, none⟩]
        (DB.mk [] 0 ⟨0, none⟩) =
      (Except.error ⟨500, "Database insert failed: " ++ "boom"⟩,
       ⟨[] ++ mkRecords 0 ⟨0, none⟩
          (((bulkChunks [⟨"A", "T", "G", 5, 300, none⟩]).take 0).flatten),
        0 + (((bulkChunks [⟨"A", "T", "G", 5, 300, none⟩]).take 0).flatten).length,
        ⟨0, none⟩⟩) :=
  ⟨⟨(by decide), (by decide), rfl⟩,
   c4_bulk_partial_failure (fun _ => some "boom") [⟨"A", "T", "G", 5, 300, none⟩]
     (DB.mk [] 0 ⟨0, none⟩) 0 "boom" (by decide) (by decide) rfl
     (fun i hi => absurd hi (Nat.not_lt_zero i))⟩

end BeAnalytics
